import Mathlib

/-!
Shallow embedding of the MainPage component of the marketing-bot frontend
(src/frontend/src/components/MainPage.jsx): the form state, the platform
toggle mapping, the generate request flow (payload construction, HTTP error
handling, response validation), the publish-to-LinkedIn flow, and the
copy/download actions over a generated result.

Network interaction is modelled by passing the response the environment
would deliver as an explicit argument; side effects (alerts, clipboard
writes, file downloads) are returned as explicit effect lists.
-/

/-- The three keys of the `platforms` toggle mapping, in the object's
declaration order (linkedin, twitter, reddit). -/
inductive PlatformKey where
  | linkedin
  | twitter
  | reddit
  deriving DecidableEq

/-- The `platforms` state object: one boolean per platform key. -/
structure Platforms where
  linkedin : Bool
  twitter : Bool
  reddit : Bool
  deriving DecidableEq

/-- JS property lookup `p[k]` on the platforms object. -/
def Platforms.get (p : Platforms) : PlatformKey → Bool
  | .linkedin => p.linkedin
  | .twitter => p.twitter
  | .reddit => p.reddit

/-- `togglePlatform(key)`: `setPlatforms((p) => ({ ...p, [key]: !p[key] }))`.
The spread keeps every other key, and writing an existing key keeps the
object's key order. -/
def togglePlatform (key : PlatformKey) (p : Platforms) : Platforms :=
  match key with
  | .linkedin => { p with linkedin := !p.linkedin }
  | .twitter => { p with twitter := !p.twitter }
  | .reddit => { p with reddit := !p.reddit }

/-- `Object.keys(platforms)`: the keys in declaration order, which toggling
never changes. -/
def objectKeys : List PlatformKey := [.linkedin, .twitter, .reddit]

/-- The JS string name of each platform key. -/
def PlatformKey.name : PlatformKey → String
  | .linkedin => "linkedin"
  | .twitter => "twitter"
  | .reddit => "reddit"

/-- `Object.keys(platforms).filter((k) => platforms[k])` from the payload
construction in handleGenerate. -/
def selectedPlatforms (p : Platforms) : List String :=
  (objectKeys.filter fun k => p.get k).map PlatformKey.name

/-- The initial / reset value of the platforms mapping:
`{ linkedin: true, twitter: false, reddit: false }`. -/
def initialPlatforms : Platforms :=
  { linkedin := true, twitter := false, reddit := false }

/-- The `generated` state shape stored by handleGenerate; each field comes
from the response body and may be absent (JS `undefined`). -/
structure Generated where
  post_title : Option String
  post_text : Option String
  post_hashtags : Option (List String)
  polished_prompt : Option String
  platform : Option String
  deriving DecidableEq

/-- The component's local state (the `useState` hooks of MainPage). -/
structure MainState where
  prompt : String
  tone : String
  audience : String
  platforms : Platforms
  generated : Option Generated
  loading : Bool
  posting : Bool
  error : String
  deriving DecidableEq

/-- JS truthiness of an optional string field: present and non-empty. -/
def strTruthy : Option String → Bool
  | none => false
  | some s => s != ""

/-- A parsed JSON response body as handleGenerate inspects it: either the
JSON value `null` (property access on it throws a TypeError), or any other
JSON value with its JS truthiness, the optional string fields the code
reads, and its `JSON.stringify` rendering. -/
structure JsonObjData where
  truthy : Bool
  detail : Option String
  error : Option String
  post_text : Option String
  post_title : Option String
  post_hashtags : Option (List String)
  polished_prompt : Option String
  platform : Option String
  stringified : String
  deriving DecidableEq

/-- A parsed JSON value: `null`, or a non-null value described by
`JsonObjData`. -/
inductive JsonVal where
  | jnull
  | jobj (d : JsonObjData)
  deriving DecidableEq

/-- The outcome of the `fetch` for `/api/generate`: a rejected promise
(network failure) with the error's message, or a response with its HTTP
status and its body — `Except.error` when `res.json()` fails to parse,
`Except.ok` with the parsed value otherwise. -/
inductive GenFetch where
  | reject (msg : String)
  | resp (status : Nat) (body : Except String JsonVal)

/-- `res.ok`: status in the 2xx range (200..299). -/
def respOk (status : Nat) : Bool := 200 ≤ status && status < 300

/-- `err.message || "Something went wrong"` from the catch block. -/
def messageOr (m : String) : String :=
  if m = "" then "Something went wrong" else m

/-- The error text built for a non-ok response: start from the generic
`Server returned <status>` message, then try to read the JSON body inside
an inner try — `body.detail || body.error || JSON.stringify(body)`. A parse
failure is ignored; so is the TypeError thrown by `body.detail` when the
body is JSON `null`, since it is raised inside the same inner try. -/
def genErrText (status : Nat) (body : Except String JsonVal) : String :=
  let generic := "Server returned " ++ toString status
  match body with
  | Except.error _ => generic
  | Except.ok JsonVal.jnull => generic
  | Except.ok (JsonVal.jobj d) =>
    if strTruthy d.detail then d.detail.getD ""
    else if strTruthy d.error then d.error.getD ""
    else d.stringified

/-- The request body handleGenerate sends to `/api/generate`. -/
structure GenPayload where
  prompt : String
  tone : String
  audience : String
  selected_platforms : List String
  image_urls : List String
  deriving DecidableEq

/-- The payload literal built in handleGenerate. -/
def mkPayload (s : MainState) : GenPayload :=
  { prompt := s.prompt
    tone := s.tone
    audience := s.audience
    selected_platforms := selectedPlatforms s.platforms
    image_urls := [] }

/-- The `setGenerated({...})` object built from a valid response body. -/
def mkGenerated (d : JsonObjData) : Generated :=
  { post_title := d.post_title
    post_text := d.post_text
    post_hashtags := d.post_hashtags
    polished_prompt := d.polished_prompt
    platform := d.platform }

/-- What one call of handleGenerate did: the requests it issued and the
state when it completed. -/
structure GenOutcome where
  requests : List GenPayload
  state : MainState

/-- `handleGenerate`: clear error and result, set loading, send the payload
unconditionally, then: non-ok status throws `Error(genErrText)`; a body that
is falsy (`!data`) or lacks a truthy `post_text` throws
`Error("Invalid response from server")`; otherwise the result is stored.
Every thrown error lands in the catch (`setError(err.message || ...)`), and
the finally clears the loading flag on every path. -/
def handleGenerate (s : MainState) (net : GenFetch) : GenOutcome :=
  let s1 : MainState := { s with error := "", generated := none, loading := true }
  let payload := mkPayload s
  let finalState : MainState :=
    match net with
    | .reject msg => { s1 with error := messageOr msg, loading := false }
    | .resp status body =>
      if respOk status then
        match body with
        | Except.error msg =>
          { s1 with error := messageOr msg, loading := false }
        | Except.ok JsonVal.jnull =>
          { s1 with error := "Invalid response from server", loading := false }
        | Except.ok (JsonVal.jobj d) =>
          if d.truthy && strTruthy d.post_text then
            { s1 with generated := some (mkGenerated d), loading := false }
          else
            { s1 with error := "Invalid response from server", loading := false }
      else
        { s1 with error := messageOr (genErrText status body), loading := false }
  { requests := [payload], state := finalState }

/-- `handleReset`: clear the three text fields, restore the default
platform toggles, drop the generated result and the error. The loading and
posting flags are not touched. -/
def handleReset (s : MainState) : MainState :=
  { s with
      prompt := ""
      tone := ""
      audience := ""
      platforms := initialPlatforms
      generated := none
      error := "" }

/-- The outcome of the `fetch` for `/api/linkedin_post`. -/
inductive PostFetch where
  | reject (msg : String)
  | resp (status : Nat) (statusText : String) (bodyText : String)
  deriving DecidableEq

/-- Observable side effects of the preview actions. -/
inductive Effect where
  | clipboardWrite (text : String)
  | alert (msg : String)
  | download (filename : String) (contents : String)
  deriving DecidableEq

/-- What one call of postToLinkedIn did: the text it sent, the state while
the request was in flight (after `setPosting(true)`), the state at
completion (after the finally), the alerts shown, and whether it returned
normally (`ok = true`) or rethrew. -/
structure PostOutcome where
  requestText : String
  inflight : MainState
  final : MainState
  alerts : List String
  ok : Bool
  deriving DecidableEq

/-- `postToLinkedIn(text)`: set posting, send `{ text }`; on a non-ok
status or a rejected fetch, alert the failure and rethrow, leaving every
other piece of state untouched; on success, run handleReset and alert the
confirmation. The finally clears the posting flag on every path. -/
def postToLinkedIn (s : MainState) (text : String) (net : PostFetch) : PostOutcome :=
  let inflight : MainState := { s with posting := true }
  match net with
  | .reject _ =>
    { requestText := text
      inflight := inflight
      final := { s with posting := false }
      alerts := ["Failed to post on LinkedIn. Check console for details."]
      ok := false }
  | .resp status _ _ =>
    if respOk status then
      { requestText := text
        inflight := inflight
        final := { handleReset inflight with posting := false }
        alerts := ["Post published successfully on LinkedIn!"]
        ok := true }
    else
      { requestText := text
        inflight := inflight
        final := { s with posting := false }
        alerts := ["Failed to post on LinkedIn. Check console for details."]
        ok := false }

/-- `handleCopy`: `if (!generated?.post_text) return;` then write the post
text to the clipboard, alerting success or failure. No state is written. -/
def handleCopy (g : Option Generated) (clipboardOk : Bool) : List Effect :=
  match g with
  | none => []
  | some gen =>
    match gen.post_text with
    | none => []
    | some t =>
      if t = "" then []
      else if clipboardOk then
        [.clipboardWrite t, .alert "Copied post text to clipboard"]
      else
        [.alert "Copy failed — please select and copy manually"]

/-- The template-literal contents of the downloaded file:
`${title ? title + "\n\n" : ""}${text}\n\n${hashtags?.length ? hashtags.join(" ") : ""}`.
The hashtags are joined with single spaces exactly as stored. -/
def downloadContents (title : Option String) (text : String)
    (hashtags : Option (List String)) : String :=
  (if strTruthy title then title.getD "" ++ "\n\n" else "") ++
    text ++ "\n\n" ++
    (match hashtags with
     | some hs => if hs.length != 0 then String.intercalate " " hs else ""
     | none => "")

/-- `handleDownload`: `if (!generated?.post_text) return;` then emit one
download of `generated_post.txt` with the template contents. No state is
written. -/
def handleDownload (g : Option Generated) : List Effect :=
  match g with
  | none => []
  | some gen =>
    match gen.post_text with
    | none => []
    | some t =>
      if t = "" then []
      else [.download "generated_post.txt"
        (downloadContents gen.post_title t gen.post_hashtags)]

/-- Apply a sequence of togglePlatform clicks, left to right. -/
def applyToggles (ts : List PlatformKey) (p : Platforms) : Platforms :=
  ts.foldl (fun q k => togglePlatform k q) p

/-- Stated from the spec side of claim C2: the platform names whose boolean
is currently true, listed in the mapping's declaration order. -/
def trueKeysInDeclOrder (p : Platforms) : List String :=
  (if p.linkedin then ["linkedin"] else []) ++
    (if p.twitter then ["twitter"] else []) ++
    (if p.reddit then ["reddit"] else [])

/-- The component's initial state. -/
def initState : MainState :=
  { prompt := ""
    tone := ""
    audience := ""
    platforms := initialPlatforms
    generated := none
    loading := false
    posting := false
    error := "" }

/-! ## Supporting lemmas -/

/-- The filtered key list of the payload equals the true keys listed in
declaration order, for every toggle state. -/
theorem selectedPlatforms_eq_trueKeysInDeclOrder (p : Platforms) :
    selectedPlatforms p = trueKeysInDeclOrder p := by
  cases p with
  | mk l t r =>
    cases l <;> cases t <;> cases r <;> rfl

/-- handleGenerate always issues exactly the one request built from the
current state. -/
theorem handleGenerate_requests (s : MainState) (net : GenFetch) :
    (handleGenerate s net).requests = [mkPayload s] := rfl

/-! ## Claims -/

/-- C5: For every execution of handleGenerate — success, response-shape
validation failure, or network/HTTP failure — the loading flag is false
when the call completes. -/
theorem c5_loading_false_on_completion (s : MainState) (net : GenFetch) :
    (handleGenerate s net).state.loading = false := by
  cases net with
  | reject m => rfl
  | resp status body =>
    by_cases h : respOk status = true
    · cases body with
      | error m => simp [handleGenerate, h]
      | ok v =>
        cases v with
        | jnull => simp [handleGenerate, h]
        | jobj d =>
          by_cases h2 : (d.truthy && strTruthy d.post_text) = true
          · simp [handleGenerate, h, h2]
          · simp [handleGenerate, h, h2]
    · simp [handleGenerate, h]

/-- C7: For every form state — including one where prompt, tone and
audience are all empty — handleGenerate issues the POST with the payload
built directly from the raw state, performing no client-side
required-field validation before sending. -/
theorem c7_no_client_side_validation (s : MainState) (net : GenFetch) :
    (handleGenerate s net).requests =
      [{ prompt := s.prompt
         tone := s.tone
         audience := s.audience
         selected_platforms := selectedPlatforms s.platforms
         image_urls := [] }] := rfl

/-- C8: togglePlatform negates the boolean at the given key, leaves every
other key unchanged, and applying it twice restores the original mapping. -/
theorem c8_toggle_independent_involutive (p : Platforms) (k k2 : PlatformKey) :
    (togglePlatform k p).get k2 =
        (if k2 = k then !(p.get k2) else p.get k2) ∧
      togglePlatform k (togglePlatform k p) = p := by
  constructor
  · cases k <;> cases k2 <;> simp [togglePlatform, Platforms.get]
  · cases p with
    | mk l t r => cases k <;> simp [togglePlatform]

/-- C2: After any sequence of togglePlatform calls, the
`selected_platforms` array sent by handleGenerate is exactly the keys
whose boolean is true, in the mapping's declaration order (linkedin,
twitter, reddit), independent of the toggle order. -/
theorem c2_selected_platforms_declaration_order
    (s : MainState) (ts : List PlatformKey) (net : GenFetch) :
    (handleGenerate { s with platforms := applyToggles ts s.platforms } net).requests.map
        GenPayload.selected_platforms =
      [trueKeysInDeclOrder (applyToggles ts s.platforms)] := by
  rw [handleGenerate_requests]
  simp [mkPayload, selectedPlatforms_eq_trueKeysInDeclOrder]

/-- C10: When the generated result is null, or its post_text is absent or
empty, handleCopy and handleDownload are no-ops: no clipboard write, no
alert, no download is emitted (and neither function writes state). -/
theorem c10_copy_download_noop (g : Option Generated) (clipboardOk : Bool)
    (h : g = none ∨ ∃ gen, g = some gen ∧
      (gen.post_text = none ∨ gen.post_text = some "")) :
    handleCopy g clipboardOk = [] ∧ handleDownload g = [] := by
  rcases h with h | ⟨gen, hg, ht⟩
  · subst h; exact ⟨rfl, rfl⟩
  · subst hg
    rcases ht with ht | ht <;> simp [handleCopy, handleDownload, ht]

/-- Witness for C10 at the initial state (no generated result). -/
theorem c10_copy_download_noop_witness :
    handleCopy none true = [] ∧ handleDownload none = [] :=
  c10_copy_download_noop none true (Or.inl rfl)

/-- C3: A 2xx generation response whose body is JSON null or lacks the
post_text field leaves a non-empty error message and a null generated
result — the preview is not populated. -/
theorem c3_invalid_body_sets_error (s : MainState) (status : Nat) (v : JsonVal)
    (hok : respOk status = true)
    (hbad : v = JsonVal.jnull ∨ ∃ d, v = JsonVal.jobj d ∧ d.post_text = none) :
    (handleGenerate s (GenFetch.resp status (Except.ok v))).state.error ≠ "" ∧
      (handleGenerate s (GenFetch.resp status (Except.ok v))).state.generated = none := by
  rcases hbad with h | ⟨d, hv, hd⟩
  · subst h
    refine ⟨?_, ?_⟩ <;> simp [handleGenerate, hok]
  · subst hv
    refine ⟨?_, ?_⟩ <;> simp [handleGenerate, hok, strTruthy, hd]

/-- Witness for C3: a 200 response with body null. -/
theorem c3_invalid_body_sets_error_witness :
    (handleGenerate initState (GenFetch.resp 200 (Except.ok JsonVal.jnull))).state.error ≠ "" ∧
      (handleGenerate initState (GenFetch.resp 200 (Except.ok JsonVal.jnull))).state.generated
        = none :=
  c3_invalid_body_sets_error initState 200 JsonVal.jnull (by decide) (Or.inl rfl)

/-- C4: A 2xx publish response resets prompt, tone, audience, the platform
toggles, the generated result and the error — the final state (the posting
flag aside, which the finally leaves false) is exactly handleReset of the
starting state. -/
theorem c4_publish_success_resets (s : MainState) (text : String)
    (status : Nat) (stext btext : String)
    (hok : respOk status = true) (hp : s.posting = false) :
    (postToLinkedIn s text (PostFetch.resp status stext btext)).final = handleReset s ∧
      (postToLinkedIn s text (PostFetch.resp status stext btext)).final.prompt = "" ∧
      (postToLinkedIn s text (PostFetch.resp status stext btext)).final.tone = "" ∧
      (postToLinkedIn s text (PostFetch.resp status stext btext)).final.audience = "" ∧
      (postToLinkedIn s text (PostFetch.resp status stext btext)).final.platforms
        = initialPlatforms ∧
      (postToLinkedIn s text (PostFetch.resp status stext btext)).final.generated = none ∧
      (postToLinkedIn s text (PostFetch.resp status stext btext)).final.error = "" := by
  cases s with
  | mk p t a pl g l po e =>
    simp only [MainState.posting] at hp
    subst hp
    refine ⟨?_, ?_, ?_, ?_, ?_, ?_, ?_⟩ <;> simp [postToLinkedIn, hok, handleReset]

/-- Witness for C4: a 200 publish response from a filled form. -/
theorem c4_publish_success_resets_witness :
    (postToLinkedIn { initState with prompt := "p" } "hello"
          (PostFetch.resp 200 "OK" "posted")).final
        = handleReset { initState with prompt := "p" } ∧
      (postToLinkedIn { initState with prompt := "p" } "hello"
          (PostFetch.resp 200 "OK" "posted")).final.prompt = "" ∧
      (postToLinkedIn { initState with prompt := "p" } "hello"
          (PostFetch.resp 200 "OK" "posted")).final.tone = "" ∧
      (postToLinkedIn { initState with prompt := "p" } "hello"
          (PostFetch.resp 200 "OK" "posted")).final.audience = "" ∧
      (postToLinkedIn { initState with prompt := "p" } "hello"
          (PostFetch.resp 200 "OK" "posted")).final.platforms = initialPlatforms ∧
      (postToLinkedIn { initState with prompt := "p" } "hello"
          (PostFetch.resp 200 "OK" "posted")).final.generated = none ∧
      (postToLinkedIn { initState with prompt := "p" } "hello"
          (PostFetch.resp 200 "OK" "posted")).final.error = "" :=
  c4_publish_success_resets { initState with prompt := "p" } "hello" 200 "OK" "posted"
    (by decide) rfl

/-- A publish attempt failed: the fetch rejected or the status is not 2xx. -/
def isPostFailure : PostFetch → Bool
  | .reject _ => true
  | .resp status _ _ => !respOk status

/-- C9: A failed publish leaves every piece of state unchanged — during the
call only the posting flag is set true, and at completion only the posting
flag differs (false); no reset is performed. -/
theorem c9_publish_failure_frame (s : MainState) (text : String) (net : PostFetch)
    (hfail : isPostFailure net = true) :
    (postToLinkedIn s text net).inflight = { s with posting := true } ∧
      (postToLinkedIn s text net).final = { s with posting := false } := by
  cases net with
  | reject m => exact ⟨rfl, rfl⟩
  | resp status st bt =>
    have h : respOk status = false := by
      simpa [isPostFailure] using hfail
    refine ⟨?_, ?_⟩ <;> simp [postToLinkedIn, h]

/-- Witness for C9: a 500 publish response. -/
theorem c9_publish_failure_frame_witness :
    (postToLinkedIn initState "hello" (PostFetch.resp 500 "err" "boom")).inflight
        = { initState with posting := true } ∧
      (postToLinkedIn initState "hello" (PostFetch.resp 500 "err" "boom")).final
        = { initState with posting := false } :=
  c9_publish_failure_frame initState "hello" (PostFetch.resp 500 "err" "boom") (by decide)

/-- The generated result of claim C1: title "T", body "B",
hashtags ["x", "#y"]. -/
def gC1 : Generated :=
  { post_title := some "T"
    post_text := some "B"
    post_hashtags := some ["x", "#y"]
    polished_prompt := none
    platform := none }

/-- C1 fails as stated: for title "T", body "B", hashtags ["x", "#y"] the
downloaded contents are not "T\n\nB\n\n#x #y". handleDownload joins the
hashtags exactly as stored — only the preview rendering strips and
re-adds the leading '#'. -/
theorem c1_download_counterexample :
    handleDownload (some gC1) ≠
      [Effect.download "generated_post.txt" "T\n\nB\n\n#x #y"] := by
  decide

/-- C1 amended: for every generated result with post_title "T", post_text
"B" and post_hashtags ["x", "#y"], the downloaded file is
generated_post.txt with contents "T\n\nB\n\nx #y" — title, blank line,
body, blank line, the hashtags joined by single spaces exactly as stored,
with no '#' stripped or added. -/
theorem c1_download_contents_amended (pp pf : Option String) :
    handleDownload (some { gC1 with polished_prompt := pp, platform := pf }) =
      [Effect.download "generated_post.txt" "T\n\nB\n\nx #y"] := by
  rfl

/-- The error body of claim C6: a JSON object whose detail field is
present but empty, with a non-empty error field. -/
def bodyC6 : JsonObjData :=
  { truthy := true
    detail := some ""
    error := some "E"
    post_text := none
    post_title := none
    post_hashtags := none
    polished_prompt := none
    platform := none
    stringified := "\x7b\x22detail\x22:\x22\x22,\x22error\x22:\x22E\x22\x7d" }

/-- C6 fails as stated: for a 500 response whose JSON body has detail
present (but empty) and error "E", the stored message is "E", not the
detail field — the code tests JS truthiness, not presence. -/
theorem c6_detail_present_counterexample :
    bodyC6.detail = some "" ∧
      (handleGenerate initState
          (GenFetch.resp 500 (Except.ok (JsonVal.jobj bodyC6)))).state.error = "E" :=
  ⟨rfl, rfl⟩

/-- An optional field filtered through JS truthiness: kept only when
present and non-empty. -/
def nonEmptyField : Option String → Option String
  | some v => if v = "" then none else some v
  | none => none

/-- Stated from the amended claim C6: the message for a non-2xx response
is the detail field when present and non-empty, else the error field when
present and non-empty, else the JSON string of the whole body; a JSON null
body or a parse failure yields the generic status message. -/
def specGenErrMessage (status : Nat) (body : Except String JsonVal) : String :=
  match body with
  | Except.ok (JsonVal.jobj d) =>
    match nonEmptyField d.detail with
    | some dv => dv
    | none =>
      match nonEmptyField d.error with
      | some ev => ev
      | none => d.stringified
  | _ => "Server returned " ++ toString status

/-- The error text the code builds coincides with the amended rule. -/
theorem genErrText_eq_specGenErrMessage (status : Nat) (body : Except String JsonVal) :
    genErrText status body = specGenErrMessage status body := by
  cases body with
  | error m => rfl
  | ok v =>
    cases v with
    | jnull => rfl
    | jobj d =>
      cases hd : d.detail with
      | none =>
        cases he : d.error with
        | none => simp [genErrText, specGenErrMessage, nonEmptyField, strTruthy, hd, he]
        | some ev =>
          by_cases h : ev = "" <;>
            simp [genErrText, specGenErrMessage, nonEmptyField, strTruthy, hd, he, h]
      | some dv =>
        by_cases h : dv = ""
        · cases he : d.error with
          | none => simp [genErrText, specGenErrMessage, nonEmptyField, strTruthy, hd, he, h]
          | some ev =>
            by_cases h2 : ev = "" <;>
              simp [genErrText, specGenErrMessage, nonEmptyField, strTruthy, hd, he, h, h2]
        · simp [genErrText, specGenErrMessage, nonEmptyField, strTruthy, hd, h]

/-- C6 amended: for every non-2xx generation response, the stored error
message is the detail field when present and non-empty; otherwise the
error field when present and non-empty; otherwise the JSON string of the
body; a JSON null body or a parse failure yields the generic
"Server returned <status>" (stated for messages that are non-empty, which
the catch would otherwise replace by a fallback text). -/
theorem c6_amended_error_message (s : MainState) (status : Nat)
    (body : Except String JsonVal)
    (hne : respOk status = false)
    (hmsg : specGenErrMessage status body ≠ "") :
    (handleGenerate s (GenFetch.resp status body)).state.error =
      specGenErrMessage status body := by
  simp [handleGenerate, hne, messageOr, genErrText_eq_specGenErrMessage, hmsg]

/-- Witness for the amended C6: the 500 response with body bodyC6 stores
"E". -/
theorem c6_amended_error_message_witness :
    (handleGenerate initState
        (GenFetch.resp 500 (Except.ok (JsonVal.jobj bodyC6)))).state.error =
      specGenErrMessage 500 (Except.ok (JsonVal.jobj bodyC6)) :=
  c6_amended_error_message initState 500 (Except.ok (JsonVal.jobj bodyC6))
    (by decide) (by decide)
